import Mathlib

/-!
# array_overflow.c

A shallow embedding of `src/vulnerable_programs/array_overflow.c`.

The C program indexes stack arrays without any check. Every array access of the
source is embedded as a *raw* access: it is appended to the list of accesses the
function performs, exactly as the source issues it, and its effect on the array
object is computed with Option-returning indexing (`readAt`, `writeAt`): an
access inside the object reads or replaces the element, an access outside the
object leaves the object as it is. Nothing in the source tests an index or a
size, so no function of the embedding has a failing path.

An uninitialised array `int a[n]` holds arbitrary values; it is embedded as the
list `[init 0, ..., init (n-1)]` for an arbitrary `init : Nat → Int`.

C `int` values are embedded as `Int`. The program's arithmetic stays far from
the 32-bit limits (the counters reach at most 11, the stored values at most
100), so no reduction modulo `2^32` is involved.
-/

namespace ArrayOverflow

/-! ## Data model -/

/-- One raw array access of the source: `a[idx] = val` or a read of `a[idx]`. -/
inductive MemOp where
  | store (idx : Int) (val : Int)
  | load (idx : Int)
  deriving DecidableEq, Repr

/-- Index of an access. -/
def MemOp.idx : MemOp → Int
  | .store i _ => i
  | .load i => i

/-- The bounds invariant `0 ≤ i < cap`. -/
def inBounds (cap : Nat) (i : Int) : Bool :=
  decide (0 ≤ i) && decide (i < (cap : Int))

/-- Option-returning read of `a[i]`. -/
def readAt (a : List Int) (i : Int) : Option Int :=
  if inBounds a.length i then a[i.toNat]? else none

/-- Option-returning write `a[i] = v`. -/
def writeAt (a : List Int) (i : Int) (v : Int) : Option (List Int) :=
  if inBounds a.length i then some (a.set i.toNat v) else none

/-- The contents of an uninitialised `int a[n]`. -/
def declArray (n : Nat) (init : Nat → Int) : List Int :=
  (List.range n).map init

/-- The array of a function's stack frame together with the accesses and the
`printf` arguments the function has issued so far (oldest first). -/
structure Frame where
  arr : List Int
  ops : List MemOp
  out : List (Option Int)
  deriving DecidableEq, Repr

/-- Frame right after the declaration `int a[n];`. -/
def Frame.decl (n : Nat) (init : Nat → Int) : Frame :=
  { arr := declArray n init, ops := [], out := [] }

/-- The raw statement `a[i] = v;`: no test precedes the access. -/
def Frame.store (f : Frame) (i v : Int) : Frame :=
  { f with arr := (writeAt f.arr i v).getD f.arr, ops := f.ops ++ [MemOp.store i v] }

/-- The raw statement `printf("Value: %d\n", a[i]);`. The value handed to
`printf` is `none` when the read is outside the object. -/
def Frame.print (f : Frame) (i : Int) : Frame :=
  { f with ops := f.ops ++ [MemOp.load i], out := f.out ++ [readAt f.arr i] }

/-- The accesses of a trace whose index violates `0 ≤ i < cap`. -/
def outOfRange (cap : Nat) (ops : List MemOp) : List MemOp :=
  ops.filter (fun op => !inBounds cap op.idx)

/-! ## `arrayOverflow` -/

/-- The loop `for (int i = 0; i <= 10; i++) { arr[i] = i * 2; }`, entered with
counter `i`. -/
def arrayOverflow.loop (i : Int) (f : Frame) : Frame :=
  if i ≤ 10 then arrayOverflow.loop (i + 1) (f.store i (i * 2)) else f
termination_by (11 - i).toNat
decreasing_by omega

/-- State (counter, frame) of the loop of `arrayOverflow` after at most `k`
iterations, entered with counter `i`. -/
def arrayOverflow.loopPrefix : Nat → Int → Frame → Int × Frame
  | 0, i, f => (i, f)
  | k + 1, i, f =>
    if i ≤ 10 then arrayOverflow.loopPrefix k (i + 1) (f.store i (i * 2)) else (i, f)

/-- Function `void arrayOverflow()`. -/
def arrayOverflow (init : Nat → Int) : Frame :=
  let arr := Frame.decl 10 init
  let arr := arrayOverflow.loop 0 arr
  let arr := arr.store 15 100
  arr.print 20

/-! ## `dynamicArrayOverflow` -/

/-- The declaration `int buffer[size];` of a variable-length array. -/
def vlaDecl (size : Int) (init : Nat → Int) : Frame :=
  Frame.decl size.toNat init

/-- The loop `for (int i = 0; i < 10; i++) { buffer[i] = i; }`, entered with
counter `i`. -/
def dynamicArrayOverflow.loop (i : Int) (f : Frame) : Frame :=
  if i < 10 then dynamicArrayOverflow.loop (i + 1) (f.store i i) else f
termination_by (10 - i).toNat
decreasing_by omega

/-- State (counter, frame) of the loop of `dynamicArrayOverflow` after at most
`k` iterations, entered with counter `i`. -/
def dynamicArrayOverflow.loopPrefix : Nat → Int → Frame → Int × Frame
  | 0, i, f => (i, f)
  | k + 1, i, f =>
    if i < 10 then dynamicArrayOverflow.loopPrefix k (i + 1) (f.store i i) else (i, f)

/-- Lines 23-29 of the source: what `dynamicArrayOverflow` executes below
`int size = 5;`, as a function of `size`. -/
def dynamicArrayOverflow.withSize (size : Int) (init : Nat → Int) : Frame :=
  let buffer := vlaDecl size init
  dynamicArrayOverflow.loop 0 buffer

/-- Function `void dynamicArrayOverflow()`. -/
def dynamicArrayOverflow (init : Nat → Int) : Frame :=
  let size : Int := 5
  dynamicArrayOverflow.withSize size init

/-! ## `userControlledIndex` -/

/-- Function `void userControlledIndex(int index)`. -/
def userControlledIndex (init : Nat → Int) (index : Int) : Frame :=
  let data := Frame.decl 8 init
  data.store index 42

/-! ## `main` -/

/-- What `main` has done when it returns: the frames of its calls, in call
order, and its return value. -/
structure MainResult where
  calls : List Frame
  ret : Int
  deriving DecidableEq, Repr

/-- Function `int main()`; the three arguments are the arbitrary initial contents of the
three callee arrays. -/
def main (init₁ init₂ init₃ : Nat → Int) : MainResult :=
  let c₁ := arrayOverflow init₁
  let c₂ := dynamicArrayOverflow init₂
  let c₃ := userControlledIndex init₃ 100
  { calls := [c₁, c₂, c₃], ret := 0 }

/-! ## Indexing lemmas -/

theorem inBounds_iff (cap : Nat) (i : Int) :
    inBounds cap i = true ↔ 0 ≤ i ∧ i < (cap : Int) := by
  simp [inBounds]

theorem store_arr_length (f : Frame) (i v : Int) :
    (f.store i v).arr.length = f.arr.length := by
  unfold Frame.store writeAt
  split <;> simp

theorem store_ops (f : Frame) (i v : Int) :
    (f.store i v).ops = f.ops ++ [MemOp.store i v] := rfl

theorem readAt_store_same (f : Frame) (i v : Int) (h : inBounds f.arr.length i = true) :
    readAt (f.store i v).arr i = some v := by
  have hb := (inBounds_iff _ _).1 h
  have hlt : i.toNat < f.arr.length := by omega
  simp [Frame.store, writeAt, readAt, h, hlt]

theorem readAt_store_other (f : Frame) (i j v : Int) (hne : j ≠ i) :
    readAt (f.store i v).arr j = readAt f.arr j := by
  by_cases h : inBounds f.arr.length i = true
  · have hb := (inBounds_iff _ _).1 h
    by_cases hj : inBounds f.arr.length j = true
    · have hjb := (inBounds_iff _ _).1 hj
      have hn : i.toNat ≠ j.toNat := by omega
      simp [Frame.store, writeAt, readAt, h, hj, List.getElem?_set_ne hn]
    · simp [Frame.store, writeAt, readAt, h, hj]
  · simp [Frame.store, writeAt, readAt, h]

/-! ## The loops -/

theorem arrayOverflow_loop_run (init : Nat → Int) :
    arrayOverflow.loop 0 (Frame.decl 10 init) =
      { arr := [0, 2, 4, 6, 8, 10, 12, 14, 16, 18],
        ops := [.store 0 0, .store 1 2, .store 2 4, .store 3 6, .store 4 8, .store 5 10,
                .store 6 12, .store 7 14, .store 8 16, .store 9 18, .store 10 20],
        out := [] } := by
  simp [arrayOverflow.loop, Frame.decl, declArray, Frame.store, writeAt, inBounds,
    List.range, List.range.loop]

theorem dynamicArrayOverflow_loop_run (init : Nat → Int) :
    dynamicArrayOverflow.loop 0 (vlaDecl 5 init) =
      { arr := [0, 1, 2, 3, 4],
        ops := [.store 0 0, .store 1 1, .store 2 2, .store 3 3, .store 4 4, .store 5 5,
                .store 6 6, .store 7 7, .store 8 8, .store 9 9],
        out := [] } := by
  simp [dynamicArrayOverflow.loop, vlaDecl, Frame.decl, declArray, Frame.store, writeAt,
    inBounds, List.range, List.range.loop]

theorem arrayOverflow_loop_exit (i : Int) (f : Frame) (h : ¬ i ≤ 10) :
    arrayOverflow.loop i f = f := by
  rw [arrayOverflow.loop, if_neg h]

theorem arrayOverflow_loop_iter (i : Int) (f : Frame) (h : i ≤ 10) :
    arrayOverflow.loop i f = arrayOverflow.loop (i + 1) (f.store i (i * 2)) := by
  rw [arrayOverflow.loop, if_pos h]

theorem dynamicArrayOverflow_loop_exit (i : Int) (f : Frame) (h : ¬ i < 10) :
    dynamicArrayOverflow.loop i f = f := by
  rw [dynamicArrayOverflow.loop, if_neg h]

theorem dynamicArrayOverflow_loop_iter (i : Int) (f : Frame) (h : i < 10) :
    dynamicArrayOverflow.loop i f = dynamicArrayOverflow.loop (i + 1) (f.store i i) := by
  rw [dynamicArrayOverflow.loop, if_pos h]

/-- From any counter value the loop of `arrayOverflow` has exited after
`11 - i` iterations: the counter has moved up to the bound and the frame is the
one `arrayOverflow.loop` returns. -/
theorem arrayOverflow_loopPrefix_exit (n : Nat) :
    ∀ (i : Int) (f : Frame), (11 - i).toNat ≤ n →
      arrayOverflow.loopPrefix n i f = (max i 11, arrayOverflow.loop i f) := by
  induction n with
  | zero =>
    intro i f h
    have hi : ¬ i ≤ 10 := by omega
    have hm : max i 11 = i := by omega
    simp [arrayOverflow.loopPrefix, arrayOverflow_loop_exit i f hi, hm]
  | succ n ih =>
    intro i f h
    by_cases hi : i ≤ 10
    · have hm : max (i + 1) 11 = max i 11 := by omega
      rw [arrayOverflow.loopPrefix, if_pos hi, ih (i + 1) _ (by omega),
        arrayOverflow_loop_iter i f hi, hm]
    · have hm : max i 11 = i := by omega
      rw [arrayOverflow.loopPrefix, if_neg hi, arrayOverflow_loop_exit i f hi, hm]

/-- From any counter value the loop of `dynamicArrayOverflow` has exited after
`10 - i` iterations. -/
theorem dynamicArrayOverflow_loopPrefix_exit (n : Nat) :
    ∀ (i : Int) (f : Frame), (10 - i).toNat ≤ n →
      dynamicArrayOverflow.loopPrefix n i f = (max i 10, dynamicArrayOverflow.loop i f) := by
  induction n with
  | zero =>
    intro i f h
    have hi : ¬ i < 10 := by omega
    have hm : max i 10 = i := by omega
    simp [dynamicArrayOverflow.loopPrefix, dynamicArrayOverflow_loop_exit i f hi, hm]
  | succ n ih =>
    intro i f h
    by_cases hi : i < 10
    · have hm : max (i + 1) 10 = max i 10 := by omega
      rw [dynamicArrayOverflow.loopPrefix, if_pos hi, ih (i + 1) _ (by omega),
        dynamicArrayOverflow_loop_iter i f hi, hm]
    · have hm : max i 10 = i := by omega
      rw [dynamicArrayOverflow.loopPrefix, if_neg hi, dynamicArrayOverflow_loop_exit i f hi, hm]

/-- No prefix of the loop of `dynamicArrayOverflow` changes the number of
elements of the array. -/
theorem dynamicArrayOverflow_loopPrefix_length (k : Nat) :
    ∀ (i : Int) (f : Frame),
      (dynamicArrayOverflow.loopPrefix k i f).2.arr.length = f.arr.length := by
  induction k with
  | zero => intro i f; rfl
  | succ k ih =>
    intro i f
    by_cases hi : i < 10
    · rw [dynamicArrayOverflow.loopPrefix, if_pos hi, ih, store_arr_length]
    · rw [dynamicArrayOverflow.loopPrefix, if_neg hi]

theorem vlaDecl_length (size : Int) (init : Nat → Int) :
    (vlaDecl size init).arr.length = size.toNat := by
  simp [vlaDecl, Frame.decl, declArray]

/-- The counter of the loop of `arrayOverflow` after at most `k` iterations. -/
theorem arrayOverflow_loopPrefix_counter (k : Nat) :
    ∀ (i : Int) (f : Frame),
      (arrayOverflow.loopPrefix k i f).1 = if i ≤ 10 then min (i + k) 11 else i := by
  induction k with
  | zero =>
    intro i f
    by_cases hi : i ≤ 10
    · have hm : min (i + ((0 : Nat) : Int)) 11 = i := by omega
      rw [if_pos hi, hm]; rfl
    · rw [if_neg hi]; rfl
  | succ k ih =>
    intro i f
    by_cases hi : i ≤ 10
    · rw [arrayOverflow.loopPrefix, if_pos hi, ih, if_pos hi]
      split <;> omega
    · rw [arrayOverflow.loopPrefix, if_neg hi, if_neg hi]

/-- The counter of the loop of `dynamicArrayOverflow` after at most `k`
iterations. -/
theorem dynamicArrayOverflow_loopPrefix_counter (k : Nat) :
    ∀ (i : Int) (f : Frame),
      (dynamicArrayOverflow.loopPrefix k i f).1 = if i < 10 then min (i + k) 10 else i := by
  induction k with
  | zero =>
    intro i f
    by_cases hi : i < 10
    · have hm : min (i + ((0 : Nat) : Int)) 10 = i := by omega
      rw [if_pos hi, hm]; rfl
    · rw [if_neg hi]; rfl
  | succ k ih =>
    intro i f
    by_cases hi : i < 10
    · rw [dynamicArrayOverflow.loopPrefix, if_pos hi, ih, if_pos hi]
      split <;> omega
    · rw [dynamicArrayOverflow.loopPrefix, if_neg hi, if_neg hi]

/-! ## Claims -/

/-- C1 (evaluation of the code): `userControlledIndex` issues the store
`data[index] = 42` for every `index`, with no test before it; for the call
`userControlledIndex(100)` made by `main` the store is at index 100, outside
`0 ≤ i < 8`, and the call is the third frame `main` produces. -/
theorem userControlledIndex_store_unchecked (init₁ init₂ init₃ : Nat → Int) :
    (∀ index : Int, (userControlledIndex init₃ index).ops = [MemOp.store index 42]) ∧
    inBounds 8 100 = false ∧
    outOfRange 8 (userControlledIndex init₃ 100).ops = [MemOp.store 100 42] ∧
    (main init₁ init₂ init₃).calls[2]? =
      some { arr := declArray 8 init₃, ops := [MemOp.store 100 42], out := [] } := by
  refine ⟨fun _ => rfl, by decide, ?_, ?_⟩
  · simp [userControlledIndex, Frame.decl, Frame.store, outOfRange, MemOp.idx, inBounds]
  · simp [main, userControlledIndex, Frame.decl, Frame.store, writeAt, inBounds, declArray]

/-- C2: for every index with `0 ≤ index < 8` and every initial content of
`data`, after `userControlledIndex(index)` a read of `data[index]` yields 42 and
every other element `data[j]`, `j ≠ index`, reads as it did before the write. -/
theorem userControlledIndex_in_range (init : Nat → Int) (index : Int)
    (h0 : 0 ≤ index) (h8 : index < 8) :
    readAt (userControlledIndex init index).arr index = some 42 ∧
    ∀ j : Int, j ≠ index →
      readAt (userControlledIndex init index).arr j = readAt (declArray 8 init) j := by
  have hb : inBounds (Frame.decl 8 init).arr.length index = true := by
    rw [inBounds_iff]
    simp [Frame.decl, declArray]
    omega
  exact ⟨readAt_store_same _ _ _ hb, fun j hj => readAt_store_other _ _ _ _ hj⟩

theorem userControlledIndex_in_range_witness :
    (0 : Int) ≤ 3 ∧ (3 : Int) < 8 ∧
    (readAt (userControlledIndex (fun _ => 7) 3).arr 3 = some 42 ∧
     ∀ j : Int, j ≠ 3 →
       readAt (userControlledIndex (fun _ => 7) 3).arr j = readAt (declArray 8 (fun _ => 7)) j) :=
  ⟨by decide, by decide, userControlledIndex_in_range (fun _ => 7) 3 (by decide) (by decide)⟩

/-- C3 (evaluation of the code): the guard of the loop of `arrayOverflow` is
`i <= 10`; the loop issues the store `arr[10] = 20`, and index 10 violates
`0 ≤ i < 10`. -/
theorem arrayOverflow_loop_stores_at_10 (init : Nat → Int) :
    MemOp.store 10 20 ∈ (arrayOverflow.loop 0 (Frame.decl 10 init)).ops ∧
    inBounds 10 10 = false ∧
    (∀ f : Frame, arrayOverflow.loop 10 f = f.store 10 20) := by
  refine ⟨?_, by decide, ?_⟩
  · rw [arrayOverflow_loop_run]; simp
  · intro f
    rw [arrayOverflow_loop_iter 10 f (by decide), arrayOverflow_loop_exit _ _ (by decide)]
    rfl

/-- C4 (evaluation of the code): the loop of `dynamicArrayOverflow` is bounded
by the literal 10 and not by `size = 5`; it issues the stores `buffer[i] = i`
for `i = 5, ..., 9`, all of which violate `0 ≤ i < size`. -/
theorem dynamicArrayOverflow_stores_past_size (init : Nat → Int) :
    MemOp.store 9 9 ∈ (dynamicArrayOverflow init).ops ∧
    inBounds 5 9 = false ∧
    outOfRange 5 (dynamicArrayOverflow init).ops =
      [.store 5 5, .store 6 6, .store 7 7, .store 8 8, .store 9 9] := by
  have h : dynamicArrayOverflow init = dynamicArrayOverflow.loop 0 (vlaDecl 5 init) := rfl
  rw [h, dynamicArrayOverflow_loop_run]
  refine ⟨by simp, by decide, by decide⟩

/-- C5 (evaluation of the code): after its loop `arrayOverflow` issues the
store `arr[15] = 100` and the read `arr[20]`; both indices violate
`0 ≤ i < 10`, with Option-returning indexing both accesses take the
out-of-range branch, and `printf` receives no element of `arr`. -/
theorem arrayOverflow_literal_accesses (init : Nat → Int) :
    (arrayOverflow init).ops.drop 11 = [MemOp.store 15 100, MemOp.load 20] ∧
    inBounds 10 15 = false ∧ inBounds 10 20 = false ∧
    writeAt (arrayOverflow.loop 0 (Frame.decl 10 init)).arr 15 100 = none ∧
    readAt (arrayOverflow init).arr 20 = none ∧
    (arrayOverflow init).out = [none] := by
  have h : arrayOverflow init =
      ((arrayOverflow.loop 0 (Frame.decl 10 init)).store 15 100).print 20 := rfl
  rw [h, arrayOverflow_loop_run]
  refine ⟨by decide, by decide, by decide, by decide, by decide, by decide⟩

/-- C6: the capacity of `buffer` in `dynamicArrayOverflow` is fixed at
construction: it has `size = 5` elements when declared, still 5 after each of
the loop's iterations (after the first `k`, for every `k`) and when the
function returns; a store changes the number of elements at no index. -/
theorem dynamicArrayOverflow_capacity_fixed (init : Nat → Int) :
    (vlaDecl 5 init).arr.length = 5 ∧
    (∀ k : Nat, (dynamicArrayOverflow.loopPrefix k 0 (vlaDecl 5 init)).2.arr.length = 5) ∧
    (dynamicArrayOverflow init).arr.length = 5 ∧
    (∀ (f : Frame) (i v : Int), (f.store i v).arr.length = f.arr.length) := by
  have hdecl : (vlaDecl 5 init).arr.length = 5 := by simp [vlaDecl_length]
  have hrun : dynamicArrayOverflow init = dynamicArrayOverflow.loop 0 (vlaDecl 5 init) := rfl
  refine ⟨hdecl, ?_, ?_, store_arr_length⟩
  · intro k
    rw [dynamicArrayOverflow_loopPrefix_length, hdecl]
  · rw [hrun, dynamicArrayOverflow_loop_run]
    rfl

/-- C8: for every initial content of `arr`, once the loop of `arrayOverflow`
has finished every in-range position holds twice its index: for all `i` with
`0 ≤ i < 10`, a read of `arr[i]` yields `2 * i`. -/
theorem arrayOverflow_loop_doubles (init : Nat → Int) (i : Int)
    (h0 : 0 ≤ i) (h10 : i < 10) :
    readAt (arrayOverflow.loop 0 (Frame.decl 10 init)).arr i = some (2 * i) := by
  rw [arrayOverflow_loop_run]
  interval_cases i <;> rfl

theorem arrayOverflow_loop_doubles_witness :
    (0 : Int) ≤ 9 ∧ (9 : Int) < 10 ∧
    readAt (arrayOverflow.loop 0 (Frame.decl 10 (fun n => -(n : Int)))).arr 9 = some (2 * 9) :=
  ⟨by decide, by decide,
    arrayOverflow_loop_doubles (fun n => -(n : Int)) 9 (by decide) (by decide)⟩

/-- C9: the loop of `arrayOverflow` runs exactly 11 iterations (`i = 0..10`)
and issues exactly one store outside `0 ≤ i < 10`, at index 10; the loop of
`dynamicArrayOverflow` runs exactly 10 iterations (`i = 0..9`) and issues
exactly five stores outside `0 ≤ i < 5`, at indices 5, 6, 7, 8 and 9. -/
theorem loops_run_past_bounds (init₁ init₂ : Nat → Int) :
    ((arrayOverflow.loop 0 (Frame.decl 10 init₁)).ops.map MemOp.idx =
        [0, 1, 2, 3, 4, 5, 6, 7, 8, 9, 10] ∧
      (∀ k : Nat, (arrayOverflow.loopPrefix k 0 (Frame.decl 10 init₁)).1 = min (k : Int) 11) ∧
      outOfRange 10 (arrayOverflow.loop 0 (Frame.decl 10 init₁)).ops = [MemOp.store 10 20]) ∧
    ((dynamicArrayOverflow.loop 0 (vlaDecl 5 init₂)).ops.map MemOp.idx =
        [0, 1, 2, 3, 4, 5, 6, 7, 8, 9] ∧
      (∀ k : Nat, (dynamicArrayOverflow.loopPrefix k 0 (vlaDecl 5 init₂)).1 = min (k : Int) 10) ∧
      outOfRange 5 (dynamicArrayOverflow.loop 0 (vlaDecl 5 init₂)).ops =
        [.store 5 5, .store 6 6, .store 7 7, .store 8 8, .store 9 9]) := by
  rw [arrayOverflow_loop_run, dynamicArrayOverflow_loop_run]
  refine ⟨⟨by decide, ?_, by decide⟩, ⟨by decide, ?_, by decide⟩⟩
  · intro k
    rw [arrayOverflow_loopPrefix_counter, if_pos (by decide), zero_add]
  · intro k
    rw [dynamicArrayOverflow_loopPrefix_counter, if_pos (by decide), zero_add]

/-- C10: with checked, out-of-range-ignoring accesses the program is total.
From any counter value `i` the loop of `arrayOverflow` has exited after
`11 - i` iterations and the loop of `dynamicArrayOverflow` after `10 - i`, an
iteration moving the counter up by one while the guard holds; `main` calls
`arrayOverflow`, `dynamicArrayOverflow` and `userControlledIndex(100)` in that
order and returns 0. -/
theorem main_returns_zero (init₁ init₂ init₃ : Nat → Int) :
    (∀ (i : Int) (f : Frame),
      arrayOverflow.loopPrefix (11 - i).toNat i f = (max i 11, arrayOverflow.loop i f) ∧
      (arrayOverflow.loopPrefix 1 i f).1 = if i ≤ 10 then i + 1 else i) ∧
    (∀ (i : Int) (f : Frame),
      dynamicArrayOverflow.loopPrefix (10 - i).toNat i f =
        (max i 10, dynamicArrayOverflow.loop i f) ∧
      (dynamicArrayOverflow.loopPrefix 1 i f).1 = if i < 10 then i + 1 else i) ∧
    (main init₁ init₂ init₃).calls =
      [arrayOverflow init₁, dynamicArrayOverflow init₂, userControlledIndex init₃ 100] ∧
    (main init₁ init₂ init₃).ret = 0 := by
  refine ⟨fun i f => ⟨arrayOverflow_loopPrefix_exit _ i f (le_refl _), ?_⟩,
    fun i f => ⟨dynamicArrayOverflow_loopPrefix_exit _ i f (le_refl _), ?_⟩, rfl, rfl⟩
  · rw [arrayOverflow_loopPrefix_counter]
    split <;> omega
  · rw [dynamicArrayOverflow_loopPrefix_counter]
    split <;> omega

end ArrayOverflow
